import Mathlib

/-!
Verification of the wirecage client bootstrap and proxy datapath.

The definitions below are a shallow embedding of the Go sources of the
wirecage repository, chiefly `src/wgcage.go` (the three-stage namespace
bootstrap, the stage-2 network setup pipeline, the forwarder and ICMP
handler registration, and the supervisor exit-code logic in `main`) and
the wireguard proxy file (`ProxyConn` and `proxyBytes`).  Go strings are
embedded as `List Char`; Go machine integers that matter here (exit
codes, uids, gids, ports) are embedded as `Nat` (none of the embedded
code paths overflow or go negative); fallible steps are embedded as
`Except`/`Option` values driven by explicit syscall-result oracles.
-/

/-! ## Stage dispatch (src/wgcage.go:87, 123-129, 156, 440-446)

The binary re-execs `/proc/self/exe` with a sentinel in `argv[0]`:
stage 1 builds `cmd.Args = ["httptap.stage.2", ...]` and stage 2 builds
`cmd.Args = ["httptap.stage.3", ...]`.  On entry, `run` dispatches on
`os.Args[0]`: anything that does not start with `"httptap.stage."` is
stage 1; the exact value `"httptap.stage.3"` is stage 3; every other
value with the prefix is stage 2.
-/

inductive Stage
  | stage1
  | stage2
  | stage3
deriving DecidableEq, Repr

/-- Sentinel prefix tested by `strings.HasPrefix(os.Args[0], "httptap.stage.")`
at src/wgcage.go:87. -/
def stageSentinel : List Char := "httptap.stage.".toList

/-- Exact `argv[0]` value that selects stage 3 (src/wgcage.go:156, set at
src/wgcage.go:442). -/
def stage3Argv0 : List Char := "httptap.stage.3".toList

/-- Exact `argv[0]` value that stage 1 passes to select stage 2
(src/wgcage.go:125). -/
def stage2Argv0 : List Char := "httptap.stage.2".toList

/-- Stage selected by `run` from `os.Args[0]` (src/wgcage.go:87,156): not
having the `"httptap.stage."` prefix means stage 1; the exact value
`"httptap.stage.3"` means stage 3; any other value with the prefix falls
through to stage 2 (src/wgcage.go:194). -/
def stageOf (argv0 : List Char) : Stage :=
  if ¬ stageSentinel.isPrefixOf argv0 then .stage1
  else if argv0 = stage3Argv0 then .stage3
  else .stage2

/-- Stage dispatch as claim C3's source sentence words it: the value
`stage2` selects stage 2, the value `stage3` selects stage 3, and any
other value selects stage 1.  Stated only to be compared against
`stageOf`, the dispatch the code performs. -/
def claimStageOf (arg : List Char) : Stage :=
  if arg = "stage2".toList then .stage2
  else if arg = "stage3".toList then .stage3
  else .stage1

/-! ## Supervisor exit codes (src/wgcage.go:147-153, 187-191, 466-476, 479-494)

Every process of the three-stage chain runs the same `main`: it calls
`run`, and on error checks `errors.As(err, &exitError)`.  Each stage
wraps its child's error with `fmt.Errorf("...: %w", err)`, which
`errors.As` unwraps, so a child's `*exec.ExitError` survives the wrap.
`main` then calls `os.Exit(exitError.ExitCode())` printing nothing, and
for any other error calls `log.Fatal` (print a diagnostic, exit 1).
-/

/-- Go error values reachable in `main`: an `*exec.ExitError` carrying the
child's exit code, a `fmt.Errorf("...: %w", ...)` wrapper, or any other
leaf error (argument errors, dial errors, syscall errors, ...). -/
inductive GoError
  | exitError (code : Nat)
  | wrap (msg : List Char) (inner : GoError)
  | errorString (msg : List Char)
deriving DecidableEq

/-- The `errors.As(err, &exitError)` test of src/wgcage.go:487: walk the
`%w` wrap chain looking for an `*exec.ExitError`, returning its code. -/
def errorsAsExitError : GoError → Option Nat
  | .exitError c => some c
  | .wrap _ inner => errorsAsExitError inner
  | .errorString _ => none

/-- Observable outcome of one `main` invocation (src/wgcage.go:479-494). -/
inductive MainOutcome
  | exitZero
  | exitSilently (code : Nat)
  | printAndExit1 (msg : List Char)
deriving DecidableEq

/-- The error message Go's `%v`/`log.Fatal` would print: wraps concatenate
their text (the format strings end in `": %w"`) with the inner message. -/
def GoError.message : GoError → List Char
  | .exitError c => "exit status ".toList ++ (toString c).toList
  | .wrap m inner => m ++ inner.message
  | .errorString m => m

/-- The `main` function of src/wgcage.go:479-494 applied to `run`'s result:
no error means exit 0; an error whose wrap chain holds an
`*exec.ExitError` means `os.Exit` with that code and no printing
(src/wgcage.go:487-489); any other error is printed by `log.Fatal` and
the process exits 1 (src/wgcage.go:492). -/
def mainOutcome : Option GoError → MainOutcome
  | none => .exitZero
  | some e =>
    match errorsAsExitError e with
    | some c => .exitSilently c
    | none => .printAndExit1 e.message

/-- Whether the outcome printed any supervisor diagnostic. -/
def mainPrintsDiagnostic : MainOutcome → Bool
  | .printAndExit1 _ => true
  | _ => false

/-- Process exit code of each outcome (`log.Fatal` exits with 1). -/
def outcomeExitCode : MainOutcome → Nat
  | .exitZero => 0
  | .exitSilently c => c
  | .printAndExit1 _ => 1

/-- Result of `cmd.Run()`/`cmd.Wait()` for a child that exited with the
given code: nil on code 0, an `*exec.ExitError` carrying the code
otherwise. -/
def cmdRunResult (childExitCode : Nat) : Option GoError :=
  if childExitCode = 0 then none else some (.exitError childExitCode)

/-- A stage's `run` observing its child's exit: the error, when any, is
wrapped with the stage's format string (src/wgcage.go:151, 189, 474). -/
def stageRunResult (wrapMsg : List Char) (childExitCode : Nat) : Option GoError :=
  (cmdRunResult childExitCode).map (.wrap wrapMsg)

/-- Full outcome of one supervisor process around a child with the given
exit code: `run` wraps the child error, `main` maps it to an outcome. -/
def superviseExit (wrapMsg : List Char) (childExitCode : Nat) : MainOutcome :=
  mainOutcome (stageRunResult wrapMsg childExitCode)

/-- Wrap text used by stage 3 around the target child (src/wgcage.go:189). -/
def stage3WrapMsg : List Char := "error launching final subprocess from third stage: ".toList

/-- Wrap text used by stage 2 around stage 3 (src/wgcage.go:474). -/
def stage2WrapMsg : List Char := "error running subprocess: ".toList

/-- Wrap text used by stage 1 around stage 2 (src/wgcage.go:151). -/
def stage1WrapMsg : List Char := "error re-executing ourselves in a new user namespace: ".toList

/-- Exit outcome of the outermost wirecage process when the target child
exits with `targetExitCode`: the code passes through stage 3's, stage
2's and stage 1's supervisor in turn. -/
def wirecageExitOutcome (targetExitCode : Nat) : MainOutcome :=
  let stage3Out := superviseExit stage3WrapMsg targetExitCode
  let stage2Out := superviseExit stage2WrapMsg (outcomeExitCode stage3Out)
  superviseExit stage1WrapMsg (outcomeExitCode stage2Out)

/-! ## User-namespace id mappings and the stage-3 privilege drop
(src/wgcage.go:134-146, 163-177, 452-464)

Stage 1 launches stage 2 with `CLONE_NEWUSER` and 1-entry maps
`{container 0 <- host uid}` / `{container 0 <- host gid}`, so stage 2
runs as uid 0, gid 0 in its namespace.  Stage 2 launches stage 3 with
reversed maps `{container UID <- host 0}` / `{container GID <- host 0}`,
so stage 3 starts already holding uid `UID`, gid `GID` in the innermost
namespace.  Stage 3 then calls `unix.Setgid(GID)` (only when `GID != 0`)
followed by `unix.Setuid(UID)` (only when `UID != 0`) before launching
the target command.
-/

/-- Go's `syscall.SysProcIDMap`: container id, host id, and range size. -/
structure SysProcIDMap where
  containerID : Nat
  hostID : Nat
  size : Nat
deriving DecidableEq

/-- Kernel id translation through a single map entry: host ids in
`[hostID, hostID + size)` map to container ids starting at
`containerID`; ids outside every entry are unmapped. -/
def mapToContainer (m : SysProcIDMap) (hostId : Nat) : Option Nat :=
  if m.hostID ≤ hostId ∧ hostId < m.hostID + m.size then
    some (m.containerID + (hostId - m.hostID))
  else
    none

/-- The kernel's overflow id shown for unmapped ids. -/
def overflowId : Nat := 65534

/-- Stage 1's uid map entry `{ContainerID: 0, HostID: os.Getuid(), Size: 1}`
(src/wgcage.go:136-140). -/
def stage1UidMapping (hostUid : Nat) : SysProcIDMap := ⟨0, hostUid, 1⟩

/-- Stage 1's gid map entry `{ContainerID: 0, HostID: os.Getgid(), Size: 1}`
(src/wgcage.go:141-145). -/
def stage1GidMapping (hostGid : Nat) : SysProcIDMap := ⟨0, hostGid, 1⟩

/-- Stage 2's uid map entry for stage 3
`{ContainerID: args.UID, HostID: 0, Size: 1}` (src/wgcage.go:454-458). -/
def stage3UidMapping (targetUid : Nat) : SysProcIDMap := ⟨targetUid, 0, 1⟩

/-- Stage 2's gid map entry for stage 3
`{ContainerID: args.GID, HostID: 0, Size: 1}` (src/wgcage.go:459-463). -/
def stage3GidMapping (targetGid : Nat) : SysProcIDMap := ⟨targetGid, 0, 1⟩

/-- A process's uid/gid pair. -/
structure Creds where
  uid : Nat
  gid : Nat
deriving DecidableEq, Repr

/-- Credentials of stage 2 inside the first user namespace: the host
uid/gid pushed through stage 1's maps. -/
def stage2Creds (hostUid hostGid : Nat) : Creds :=
  ⟨(mapToContainer (stage1UidMapping hostUid) hostUid).getD overflowId,
   (mapToContainer (stage1GidMapping hostGid) hostGid).getD overflowId⟩

/-- Credentials stage 3 starts with inside the second user namespace:
stage 2's creds pushed through the reversed maps. -/
def stage3StartCreds (hostUid hostGid targetUid targetGid : Nat) : Creds :=
  ⟨(mapToContainer (stage3UidMapping targetUid) (stage2Creds hostUid hostGid).uid).getD overflowId,
   (mapToContainer (stage3GidMapping targetGid) (stage2Creds hostUid hostGid).gid).getD overflowId⟩

/-- The credential-changing syscalls stage 3 can issue. -/
inductive CredCall
  | setgid (g : Nat)
  | setuid (u : Nat)
deriving DecidableEq, Repr

/-- The sequence of credential syscalls stage 3 issues before exec'ing the
target (src/wgcage.go:163-177): `Setgid(GID)` only when `GID != 0`, then
`Setuid(UID)` only when `UID != 0`. -/
def stage3CredCalls (targetUid targetGid : Nat) : List CredCall :=
  (if targetGid ≠ 0 then [.setgid targetGid] else [])
    ++ (if targetUid ≠ 0 then [.setuid targetUid] else [])

/-- The syscall sequence claim C4 asserts for every stage-3 invocation:
`setgid(G)` then `setuid(U)`, unconditionally. -/
def claimC4CredCalls (targetUid targetGid : Nat) : List CredCall :=
  [.setgid targetGid, .setuid targetUid]

/-- Effect of one credential syscall (issued with full capabilities over
the new user namespace, so it succeeds and sets the id). -/
def applyCredCall (c : Creds) : CredCall → Creds
  | .setgid g => { c with gid := g }
  | .setuid u => { c with uid := u }

/-- Credentials the target child inherits: stage 3's start credentials
after its conditional `Setgid`/`Setuid` calls. -/
def stage3FinalCreds (hostUid hostGid targetUid targetGid : Nat) : Creds :=
  (stage3CredCalls targetUid targetGid).foldl applyCredCall
    (stage3StartCreds hostUid hostGid targetUid targetGid)

/-! ## Stage-2 network namespace setup pipeline (src/wgcage.go:224-307)

After pinning the OS thread, stage 2 runs: `unix.Unshare(CLONE_NEWNET)`,
TUN creation, link lookup, link up, subnet parse, address add, `0.0.0.0/0`
parse, IPv4 default route add, `::/0` parse, IPv6 default route add,
loopback lookup, loopback up.  Every failure returns a fatal error —
except the IPv6 default route add, whose failure is logged at debug
level and ignored (src/wgcage.go:288-295).
-/

/-- The fallible steps of the stage-2 network setup, in program order. -/
inductive SetupStep
  | unshareNewnet
  | tunCreate
  | linkByName
  | linkSetUp
  | parseSubnet
  | addrAdd
  | parseV4Default
  | routeAddV4
  | parseV6Default
  | routeAddV6
  | loopbackByName
  | loopbackSetUp
deriving DecidableEq, Repr

/-- Oracle giving each fallible stage-2 setup step's success. -/
structure Stage2Syscalls where
  unshareOk : Bool
  tunCreateOk : Bool
  linkByNameOk : Bool
  linkSetUpOk : Bool
  parseSubnetOk : Bool
  addrAddOk : Bool
  parseV4Ok : Bool
  routeAddV4Ok : Bool
  parseV6Ok : Bool
  routeAddV6Ok : Bool
  loopbackByNameOk : Bool
  loopbackSetUpOk : Bool
deriving DecidableEq, Repr

/-- The stage-2 setup pipeline of src/wgcage.go:224-307: each failing step
makes `run` return a fatal error naming the step, except the IPv6
default route add whose failure only emits a debug log and continues
(src/wgcage.go:288-295).  `Except.ok` means stage 2 goes on to exec
stage 3. -/
def stage2NetworkSetup (r : Stage2Syscalls) : Except SetupStep Unit :=
  if ¬ r.unshareOk then .error .unshareNewnet
  else if ¬ r.tunCreateOk then .error .tunCreate
  else if ¬ r.linkByNameOk then .error .linkByName
  else if ¬ r.linkSetUpOk then .error .linkSetUp
  else if ¬ r.parseSubnetOk then .error .parseSubnet
  else if ¬ r.addrAddOk then .error .addrAdd
  else if ¬ r.parseV4Ok then .error .parseV4Default
  else if ¬ r.routeAddV4Ok then .error .routeAddV4
  else if ¬ r.parseV6Ok then .error .parseV6Default
  else if ¬ r.loopbackByNameOk then .error .loopbackByName
  else if ¬ r.loopbackSetUpOk then .error .loopbackSetUp
  else .ok ()

/-- A run in which every setup step succeeds except adding the IPv6
default route (for example, a host with IPv6 disabled,
src/wgcage.go:288-295). -/
def allOkExceptRoute6 : Stage2Syscalls :=
  ⟨true, true, true, true, true, true, true, true, true, false, true, true⟩

/-! ## The proxy mux: ProxyConn and proxyBytes (wireguard proxy file)

`ProxyConn(ctx, network, addr, subprocess)` dials the WG-side stack:
`DialContextTCPAddrPort` for `"tcp"`, `DialUDPAddrPort` for `"udp"`,
and panics on any other network string.  On dial error it logs a debug
message, closes the TUN-side (`subprocess`) endpoint — logging again at
debug level if that close fails — and returns.  On success it starts
two goroutines: one runs `proxyBytes(subprocess, conn)` (copying
outer to inner) and then `subprocess.(CloseWriter).CloseWrite()`; the
other runs `proxyBytes(conn, subprocess)` (copying inner to outer) and
then `conn.(CloseWriter).CloseWrite()`; `wait.Wait()` makes ProxyConn
return only after both goroutines finish.

Each `.(CloseWriter)` is an unchecked Go interface assertion: when the
connection's dynamic type has no `CloseWrite` method the goroutine
panics there instead of half-closing, and an unrecovered panic in any
goroutine terminates the whole process (the deferred `wait.Done` runs
during unwinding, but `ProxyConn` never returns normally).  Which
dynamic types implement `CloseWrite` is recorded by
`implementsCloseWriter` below, and the per-flow-kind event sequences of
the two goroutines (`goroutineOuterToInnerEvents`,
`goroutineInnerToOuterEvents`) and the resulting flow traces
(`IsProxyFlowTrace`) are defined after it.
-/

/-- Observable events of one `ProxyConn` invocation.  `inner` is the
TUN-side connection (`subprocess`), `outer` the WG-side dialed
connection (`conn`).  `panicAssertInner` / `panicAssertOuter` are the
panics of the unchecked `.(CloseWriter)` assertions on the inner /
outer connection; `processCrash` is the process termination an
unrecovered goroutine panic causes; `ret` is `ProxyConn` returning
normally. -/
inductive Ev
  | debugLogDialError
  | closeInner
  | debugLogCloseError
  | copyInnerToOuter
  | closeWriteOuter
  | copyOuterToInner
  | closeWriteInner
  | panicAssertInner
  | panicAssertOuter
  | processCrash
  | ret
deriving DecidableEq, Repr

/-- Interleaving of two event sequences: the order within each sequence
is preserved, and every event of both appears. -/
inductive Interleave : List Ev → List Ev → List Ev → Prop
  | nil : Interleave [] [] []
  | left {x xs ys zs} : Interleave xs ys zs → Interleave (x :: xs) ys (x :: zs)
  | right {y xs ys zs} : Interleave xs ys zs → Interleave xs (y :: ys) (y :: zs)

/-- Events of the dial-failure branch of `ProxyConn`: a debug log, the
close of the TUN-side endpoint, and one more debug log when that close
itself errors. -/
def proxyDialFailureEvents (closeFails : Bool) : List Ev :=
  [.debugLogDialError, .closeInner] ++ (if closeFails then [.debugLogCloseError] else [])

/-- How one `ProxyConn` call terminates. -/
inductive ProxyOutcome
  | panicked
  | dialFailedReturn (events : List Ev)
  | proxiedFlow
deriving DecidableEq, Repr

/-- Control shape of `ProxyConn`: the `switch network` accepts exactly
`"tcp"` and `"udp"` (anything else panics); a failed dial takes the
logging/close branch and returns normally; a successful dial proxies the
flow (its traces are `IsProxyFlowTrace`, defined below). -/
def proxyConn (network : List Char) (dialOk closeFails : Bool) : ProxyOutcome :=
  if network = "tcp".toList ∨ network = "udp".toList then
    if dialOk then .proxiedFlow
    else .dialFailedReturn (proxyDialFailureEvents closeFails)
  else .panicked

/-! ## ICMP transport handlers (src/wgcage.go:397-404)

Stage 2 registers a handler for `icmp.ProtocolNumber4` and one for
`icmp.ProtocolNumber6`.  Each logs the packet's endpoints at debug level
and returns `false`, the value the code's comment designates as "the
packet was handled and no error handler needs to be invoked".  Neither
handler constructs or sends any packet.
-/

/-- gvisor's `stack.TransportEndpointID` as used by the handlers: the
remote (sender) and local (original destination) addresses. -/
structure TransportEndpointID where
  remoteAddress : List Char
  localAddress : List Char

/-- What one ICMP handler invocation does: the debug log lines it emits,
the packets it sends back toward the sender, and its return value. -/
structure IcmpHandlerStep where
  logs : List (List Char)
  responsePackets : List (List Char)
  retval : Bool

/-- The return value that the handlers' comment (src/wgcage.go:399,403)
designates as "the packet was handled and no error handler needs to be
invoked". -/
def handledNoErrorRetval : Bool := false

/-- The ICMPv4 handler registered at src/wgcage.go:397-400: log one debug
line, send nothing, return `false`. -/
def icmpHandler4 (id : TransportEndpointID) : IcmpHandlerStep :=
  { logs := ["got icmp packet ".toList ++ id.remoteAddress ++ " => ".toList ++ id.localAddress]
    responsePackets := []
    retval := false }

/-- The ICMPv6 handler registered at src/wgcage.go:401-404: log one debug
line, send nothing, return `false`. -/
def icmpHandler6 (id : TransportEndpointID) : IcmpHandlerStep :=
  { logs := ["got icmp6 packet ".toList ++ id.remoteAddress ++ " => ".toList ++ id.localAddress]
    responsePackets := []
    retval := false }

/-! ## CloseWriter interface assertions (wireguard proxy file, lines 90-119)

After each one-way copy, the goroutines run the unchecked assertions
`subprocess.(CloseWriter).CloseWrite()` and
`conn.(CloseWriter).CloseWrite()`.  A Go interface assertion panics when
the dynamic type lacks the method.  The dynamic types per flow kind:

* TCP inner: the connection produced by `tcpRequest.Accept` — repository
  code not present under src/; per the spec's TCP forwarder contract it
  is the accepted gvisor endpoint wrapped as a gonet TCP connection.
* TCP outer: `tnet.DialContextTCPAddrPort` returns `*gonet.TCPConn`.
* UDP inner: `gonet.NewUDPConn` (src/wgcage.go:385) returns
  `*gonet.UDPConn`.
* UDP outer: `tnet.DialUDPAddrPort` returns `*gonet.UDPConn`.

Library method-set facts: gvisor's `gonet.TCPConn` has the
`CloseWrite() error` method; `gonet.UDPConn` has no `CloseWrite`
method.  (The repository's own compile-time check at the bottom of the
proxy file covers only `*net.TCPConn`, a type never used for these
flows.)
-/

/-- Flow kinds `ProxyConn` is invoked with (src/wgcage.go:367, 391). -/
inductive NetworkKind
  | tcp
  | udp
deriving DecidableEq, Repr

/-- Dynamic Go connection types flowing through `ProxyConn`. -/
inductive GoConnType
  | gonetTCPConn
  | gonetUDPConn
deriving DecidableEq, Repr

/-- Whether the dynamic type has a `CloseWrite() error` method, i.e.
whether the `.(CloseWriter)` assertion on it succeeds: true for gvisor's
`gonet.TCPConn`, false for `gonet.UDPConn`. -/
def implementsCloseWriter : GoConnType → Bool
  | .gonetTCPConn => true
  | .gonetUDPConn => false

/-- Dynamic type of the TUN-side (inner) connection handed to `ProxyConn`
for each flow kind. -/
def innerConnType : NetworkKind → GoConnType
  | .tcp => .gonetTCPConn
  | .udp => .gonetUDPConn

/-- Dynamic type of the WG-side (outer) connection `ProxyConn` dials for
each flow kind. -/
def outerConnType : NetworkKind → GoConnType
  | .tcp => .gonetTCPConn
  | .udp => .gonetUDPConn

/-- Whether both unchecked `.(CloseWriter)` assertions of the copy
goroutines succeed for a flow of the given kind — when false, the
goroutine panics at the assertion. -/
def copyGoroutinesAssertOk (k : NetworkKind) : Bool :=
  implementsCloseWriter (innerConnType k) && implementsCloseWriter (outerConnType k)

/-- Whether the event is the panic of a `.(CloseWriter)` assertion. -/
def isPanicEv : Ev → Bool
  | .panicAssertInner => true
  | .panicAssertOuter => true
  | _ => false

/-- Events of the first copy goroutine for a flow of kind `k`:
`proxyBytes(subprocess, conn)` copies the outer connection into the
inner one until EOF; then `subprocess.(CloseWriter).CloseWrite()`
half-closes the inner write side when the inner connection's dynamic
type implements `CloseWrite`, and panics otherwise. -/
def goroutineOuterToInnerEvents (k : NetworkKind) : List Ev :=
  .copyOuterToInner ::
    (if implementsCloseWriter (innerConnType k) then [.closeWriteInner] else [.panicAssertInner])

/-- Events of the second copy goroutine for a flow of kind `k`:
`proxyBytes(conn, subprocess)` copies the inner connection into the
outer one until EOF; then `conn.(CloseWriter).CloseWrite()` half-closes
the outer write side when the outer connection's dynamic type
implements `CloseWrite`, and panics otherwise. -/
def goroutineInnerToOuterEvents (k : NetworkKind) : List Ev :=
  .copyInnerToOuter ::
    (if implementsCloseWriter (outerConnType k) then [.closeWriteOuter] else [.panicAssertOuter])

/-- Cut an event sequence at its first assertion panic: an unrecovered
panic terminates the process, so no event scheduled after it is
observed. -/
def truncateAtPanic : List Ev → List Ev
  | [] => []
  | e :: rest => if isPanicEv e then [e] else e :: truncateAtPanic rest

/-- The event traces one dial-success `ProxyConn` flow of kind `k` can
produce: some interleaving of the two copy goroutines; when both
`.(CloseWriter)` assertions succeed, `wait.Wait()` sees both goroutines
done and `ProxyConn` returns; when an assertion panics, the trace stops
at the first panic and the unrecovered panic crashes the process. -/
def IsProxyFlowTrace (k : NetworkKind) (t : List Ev) : Prop :=
  ∃ m, Interleave (goroutineOuterToInnerEvents k) (goroutineInnerToOuterEvents k) m ∧
    t = if copyGoroutinesAssertOk k then m ++ [.ret] else truncateAtPanic m ++ [.processCrash]

/-! ## Namespace inheritance of the stage-3 spawn (src/wgcage.go:219-226, 466)

Stage 2 calls `runtime.LockOSThread()` and then
`unix.Unshare(unix.CLONE_NEWNET)`, so exactly one OS thread — the
pinned one — is in the fresh network namespace; the TUN device is then
created inside that namespace (src/wgcage.go:229-237).  A forked child
inherits the network namespace of the OS thread that performs the fork.
Stage 3 is spawned by `cmd.Start()` (src/wgcage.go:466), and the
repository's own documentation (the Rust rewrite notes shipped in the
repo) records that the Go runtime performs this fork from a different
OS thread on some runs, so the child then randomly inherits the host
namespace and sees only `lo`.
-/

/-- A UDP flow's 5-tuple (the protocol component is fixed to UDP). -/
structure FiveTuple where
  srcIP : Nat
  srcPort : Nat
  dstIP : Nat
  dstPort : Nat
deriving DecidableEq, Repr

/-- Datagrams (tagged by their 5-tuple) the forwarder actually delivers
into the derived endpoint: all of them on a good run, only the first
when the forwarder stalls as recorded by the TODO at
src/wgcage.go:370. -/
def udpForwarderDelivered (stalls : Bool) (datagrams : List FiveTuple) : List FiveTuple :=
  if stalls then datagrams.take 1 else datagrams

/-- Delivery demanded by the spec and by claim C7: every datagram of the
5-tuple reaches the derived endpoint. -/
def specUdpForwarderDelivered (datagrams : List FiveTuple) : List FiveTuple :=
  datagrams

/-! ## Helper lemmas -/

/-- An interleaving contains its first component as a sublist, so the
first component's internal event order is preserved. -/
theorem Interleave.sublist_left {xs ys zs : List Ev} (h : Interleave xs ys zs) :
    List.Sublist xs zs := by
  induction h with
  | nil => exact List.Sublist.refl []
  | left _ ih => exact ih.cons₂ _
  | right _ ih => exact ih.cons _

/-- An interleaving contains its second component as a sublist, so the
second component's internal event order is preserved. -/
theorem Interleave.sublist_right {xs ys zs : List Ev} (h : Interleave xs ys zs) :
    List.Sublist ys zs := by
  induction h with
  | nil => exact List.Sublist.refl []
  | left _ ih => exact ih.cons _
  | right _ ih => exact ih.cons₂ _

/-- Every event of an interleaving comes from one of the two
components. -/
theorem Interleave.mem_or {xs ys zs : List Ev} (h : Interleave xs ys zs) {e : Ev}
    (he : e ∈ zs) : e ∈ xs ∨ e ∈ ys := by
  induction h with
  | nil => cases he
  | left _ ih =>
    rcases List.mem_cons.mp he with rfl | hmem
    · exact Or.inl (List.mem_cons_self _ _)
    · rcases ih hmem with h1 | h2
      · exact Or.inl (List.mem_cons_of_mem _ h1)
      · exact Or.inr h2
  | right _ ih =>
    rcases List.mem_cons.mp he with rfl | hmem
    · exact Or.inr (List.mem_cons_self _ _)
    · rcases ih hmem with h1 | h2
      · exact Or.inl h1
      · exact Or.inr (List.mem_cons_of_mem _ h2)

/-- Cutting a trace at its first panic keeps a sublist of the trace. -/
theorem truncateAtPanic_sublist (m : List Ev) :
    List.Sublist (truncateAtPanic m) m := by
  induction m with
  | nil => exact List.Sublist.refl []
  | cons e rest ih =>
    simp only [truncateAtPanic]
    split
    · exact (List.nil_sublist rest).cons₂ e
    · exact ih.cons₂ e

/-- A trace holding a panic event still holds one after being cut at its
first panic. -/
theorem truncateAtPanic_mem_panic {m : List Ev} {e : Ev}
    (hp : isPanicEv e = true) (hm : e ∈ m) :
    ∃ p ∈ truncateAtPanic m, isPanicEv p = true := by
  induction m with
  | nil => cases hm
  | cons a rest ih =>
    simp only [truncateAtPanic]
    by_cases ha : isPanicEv a = true
    · exact ⟨a, by simp [ha], ha⟩
    · rcases List.mem_cons.mp hm with rfl | hmem
      · exact absurd hp ha
      · obtain ⟨p, hptr, hpp⟩ := ih hmem
        exact ⟨p, by simp [ha, hptr], hpp⟩

/-! ## Claim theorems -/

/-- C3, counterexample: the code dispatches on the sentinel values
`"httptap.stage.2"` / `"httptap.stage.3"`, not on `"stage2"` /
`"stage3"` as the claim states: on `argv[0] = "stage2"` the claim
selects stage 2, but the program (which tests for the
`"httptap.stage."` prefix, src/wgcage.go:87) selects stage 1. -/
theorem c3_stage_dispatch_counterexample :
    stageOf "stage2".toList = Stage.stage1 ∧
    claimStageOf "stage2".toList = Stage.stage2 ∧
    stageOf "stage2".toList ≠ claimStageOf "stage2".toList := by
  decide

/-- C3, amended: the re-exec'd binary selects its stage from `argv[0]` of
`/proc/self/exe`: a value not starting with `"httptap.stage."` selects
stage 1; the value `"httptap.stage.3"` selects stage 3; any other value
starting with `"httptap.stage."` (in particular `"httptap.stage.2"`,
the value stage 1 passes) selects stage 2. -/
theorem c3_stage_dispatch_amended :
    ∀ argv0 : List Char,
      (¬ stageSentinel.isPrefixOf argv0 → stageOf argv0 = Stage.stage1) ∧
      (argv0 = stage3Argv0 → stageOf argv0 = Stage.stage3) ∧
      (stageSentinel.isPrefixOf argv0 → argv0 ≠ stage3Argv0 → stageOf argv0 = Stage.stage2) := by
  intro argv0
  refine ⟨fun h => ?_, fun h => ?_, fun h h3 => ?_⟩
  · simp [stageOf, h]
  · simp [stageOf, h, stage3Argv0, stageSentinel, List.IsPrefix]
  · simp [stageOf, h, h3]

/-- C3, witness: the amended dispatch evaluated at the three concrete
`argv[0]` values `"wirecage"`, `"httptap.stage.3"` and
`"httptap.stage.2"`. -/
theorem c3_stage_dispatch_amended_witness :
    stageOf "wirecage".toList = Stage.stage1 ∧
    stageOf "httptap.stage.3".toList = Stage.stage3 ∧
    stageOf "httptap.stage.2".toList = Stage.stage2 :=
  ⟨(c3_stage_dispatch_amended "wirecage".toList).1 (by decide),
   (c3_stage_dispatch_amended "httptap.stage.3".toList).2.1 (by decide),
   (c3_stage_dispatch_amended "httptap.stage.2".toList).2.2 (by decide) (by decide)⟩

/-- C2, confirmed: when the target child exits with a non-zero code `n`,
every supervisor of the chain re-exits with exactly `n` and prints no
diagnostic, because `errors.As` finds the `*exec.ExitError` through the
`%w` wraps (src/wgcage.go:487-489); and any supervisor error whose wrap
chain holds no `*exec.ExitError` — every failure before the child is
exec'd — is printed by `log.Fatal` and exits with the non-zero code 1
(src/wgcage.go:492). -/
theorem c2_exit_code_passthrough :
    (∀ n : Nat, n ≠ 0 →
      wirecageExitOutcome n = .exitSilently n ∧
      mainPrintsDiagnostic (wirecageExitOutcome n) = false) ∧
    (∀ e : GoError, errorsAsExitError e = none →
      mainOutcome (some e) = .printAndExit1 e.message ∧
      mainPrintsDiagnostic (mainOutcome (some e)) = true ∧
      outcomeExitCode (mainOutcome (some e)) ≠ 0) := by
  constructor
  · intro n hn
    simp [wirecageExitOutcome, superviseExit, stageRunResult, cmdRunResult, hn,
      mainOutcome, errorsAsExitError, outcomeExitCode, mainPrintsDiagnostic]
  · intro e he
    simp [mainOutcome, he, mainPrintsDiagnostic, outcomeExitCode]

/-- C2, witness: the seed scenario S5 — the child runs `sh -c "exit 42"` —
makes the supervisor exit 42 silently, and a missing `--wg-endpoint`
(an error with no `*exec.ExitError` in its chain) is printed and exits
non-zero. -/
theorem c2_exit_code_passthrough_witness :
    (wirecageExitOutcome 42 = .exitSilently 42 ∧
      mainPrintsDiagnostic (wirecageExitOutcome 42) = false) ∧
    (mainOutcome (some (.errorString "--wg-endpoint is required".toList)) =
        .printAndExit1 "--wg-endpoint is required".toList ∧
      mainPrintsDiagnostic
        (mainOutcome (some (.errorString "--wg-endpoint is required".toList))) = true ∧
      outcomeExitCode
        (mainOutcome (some (.errorString "--wg-endpoint is required".toList))) ≠ 0) :=
  ⟨c2_exit_code_passthrough.1 42 (by decide),
   ⟨(c2_exit_code_passthrough.2 _ (by rfl)).1,
    (c2_exit_code_passthrough.2 _ (by rfl)).2.1,
    (c2_exit_code_passthrough.2 _ (by rfl)).2.2⟩⟩

/-- C4, counterexample: the claim says every stage-3 invocation calls
`setgid(G)` and then `setuid(U)`, but both calls are guarded by
`!= 0` (src/wgcage.go:163, 171): with target uid 0 and gid 0 — e.g.
wirecage launched by root without `--user` — stage 3 issues no
credential syscall at all. -/
theorem c4_privilege_drop_counterexample :
    stage3CredCalls 0 0 = [] ∧
    stage3CredCalls 0 0 ≠ claimC4CredCalls 0 0 := by
  decide

/-- C4, amended: stage 3 calls `setgid(G)` (only when `G ≠ 0`) and then
`setuid(U)` (only when `U ≠ 0`), in that order; and since stage 3
starts with uid `U`, gid `G` under the reversed 1-entry maps, the
final child's uid equals the target uid and its gid equals the target
gid regardless of host uid/gid — also when a call is skipped. -/
theorem c4_privilege_drop_amended :
    ∀ hostUid hostGid targetUid targetGid : Nat,
      stage3FinalCreds hostUid hostGid targetUid targetGid = ⟨targetUid, targetGid⟩ ∧
      (targetGid ≠ 0 → targetUid ≠ 0 →
        stage3CredCalls targetUid targetGid =
          [.setgid targetGid, .setuid targetUid]) := by
  intro hostUid hostGid targetUid targetGid
  constructor
  · have hstart : stage3StartCreds hostUid hostGid targetUid targetGid =
        ⟨targetUid, targetGid⟩ := by
      simp [stage3StartCreds, stage2Creds, mapToContainer, stage1UidMapping,
        stage1GidMapping, stage3UidMapping, stage3GidMapping, Nat.lt_succ_iff]
    unfold stage3FinalCreds
    rw [hstart]
    by_cases hG : targetGid = 0 <;> by_cases hU : targetUid = 0 <;>
      simp [stage3CredCalls, hG, hU, applyCredCall]
  · intro hG hU
    simp [stage3CredCalls, hG, hU]

/-- C4, witness: the amended statement evaluated for host uid/gid
1000/1000 and target uid/gid 5/7: the syscall trace is
`[setgid 7, setuid 5]` and the final child's credentials are uid 5,
gid 7. -/
theorem c4_privilege_drop_amended_witness :
    stage3FinalCreds 1000 1000 5 7 = ⟨5, 7⟩ ∧
    stage3CredCalls 5 7 = [.setgid 7, .setuid 5] :=
  ⟨(c4_privilege_drop_amended 1000 1000 5 7).1,
   (c4_privilege_drop_amended 1000 1000 5 7).2 (by decide) (by decide)⟩


/-- Bool-valued view of the stage-2 setup pipeline: whether it reached
the point of exec'ing stage 3. -/
def stage2SetupOk (r : Stage2Syscalls) : Bool :=
  match stage2NetworkSetup r with
  | .ok _ => true
  | .error _ => false

/-- Helper: the stage-2 pipeline succeeds exactly when every step except
the IPv6 default route add succeeds, as one Bool equation. -/
theorem stage2SetupOk_spec :
    ∀ r : Stage2Syscalls,
      stage2SetupOk r =
        (r.unshareOk && r.tunCreateOk && r.linkByNameOk && r.linkSetUpOk &&
         r.parseSubnetOk && r.addrAddOk && r.parseV4Ok && r.routeAddV4Ok &&
         r.parseV6Ok && r.loopbackByNameOk && r.loopbackSetUpOk) := by
  rintro ⟨u, t, lb, lu, ps, aa, p4, r4, p6, r6, lo, lou⟩
  cases u <;> cases t <;> cases lb <;> cases lu <;> cases ps <;> cases aa <;>
    cases p4 <;> cases r4 <;> cases p6 <;> cases r6 <;> cases lo <;> cases lou <;> rfl

/-- C8, counterexample: a failed `netlink.RouteAdd` for the `::/0`
default route is not fatal — stage 2 logs it at debug level and
proceeds to exec the child (src/wgcage.go:288-295) — refuting the claim
that every default-route-add failure makes stage 2 return a fatal
error. -/
theorem c8_ipv6_route_failure_not_fatal :
    allOkExceptRoute6.routeAddV6Ok = false ∧
    stage2NetworkSetup allOkExceptRoute6 = .ok () := by
  exact ⟨rfl, rfl⟩

/-- C8, amended: during stage 2, every failure of
`unshare(CLONE_NEWNET)`, TUN device creation, address assignment, or
adding the default IPv4 route (and of the other mandatory steps: link
lookup and up, subnet and route parsing, loopback lookup and up) makes
stage 2 return a fatal error and not exec the child; only a failure of
adding the default IPv6 route is logged and ignored.  Equivalently:
stage 2 proceeds to exec exactly when every step other than the IPv6
route add succeeded. -/
theorem c8_setup_failures_amended :
    ∀ r : Stage2Syscalls,
      stage2NetworkSetup r = .ok () ↔
        (r.unshareOk ∧ r.tunCreateOk ∧ r.linkByNameOk ∧ r.linkSetUpOk ∧
         r.parseSubnetOk ∧ r.addrAddOk ∧ r.parseV4Ok ∧ r.routeAddV4Ok ∧
         r.parseV6Ok ∧ r.loopbackByNameOk ∧ r.loopbackSetUpOk) := by
  intro r
  have h := stage2SetupOk_spec r
  constructor
  · intro hok
    unfold stage2SetupOk at h
    rw [hok] at h
    simpa [and_assoc] using h.symm
  · intro hp
    have hb : stage2SetupOk r = true := by
      rw [h]
      simp only [Bool.and_eq_true]
      exact ⟨⟨⟨⟨⟨⟨⟨⟨⟨⟨hp.1, hp.2.1⟩, hp.2.2.1⟩, hp.2.2.2.1⟩, hp.2.2.2.2.1⟩,
        hp.2.2.2.2.2.1⟩, hp.2.2.2.2.2.2.1⟩, hp.2.2.2.2.2.2.2.1⟩,
        hp.2.2.2.2.2.2.2.2.1⟩, hp.2.2.2.2.2.2.2.2.2.1⟩, hp.2.2.2.2.2.2.2.2.2.2⟩
    unfold stage2SetupOk at hb
    cases hst : stage2NetworkSetup r with
    | ok u => cases u; rfl
    | error e =>
      rw [hst] at hb
      exact absurd hb (by simp)

/-- C5, counterexample: a UDP flow whose dial succeeds refutes the
claim: both endpoints are gonet UDP connections without a `CloseWrite`
method, so on the concrete trace where the outer-to-inner copy finishes
first, the goroutine panics at `subprocess.(CloseWriter)` instead of
half-closing, no half-close event ever occurs, and the process crashes
instead of `ProxyConn` returning after both copies. -/
theorem c5_proxy_copy_loop_counterexample :
    IsProxyFlowTrace NetworkKind.udp
      [Ev.copyOuterToInner, Ev.panicAssertInner, Ev.processCrash] ∧
    Ev.closeWriteInner ∉
      ([Ev.copyOuterToInner, Ev.panicAssertInner, Ev.processCrash] : List Ev) ∧
    Ev.closeWriteOuter ∉
      ([Ev.copyOuterToInner, Ev.panicAssertInner, Ev.processCrash] : List Ev) ∧
    ([Ev.copyOuterToInner, Ev.panicAssertInner, Ev.processCrash] : List Ev).getLast? ≠
      some Ev.ret := by
  refine ⟨⟨[Ev.copyOuterToInner, Ev.panicAssertInner, Ev.copyInnerToOuter,
      Ev.panicAssertOuter], ?_, by decide⟩, by decide, by decide, by decide⟩
  show Interleave [Ev.copyOuterToInner, Ev.panicAssertInner]
    [Ev.copyInnerToOuter, Ev.panicAssertOuter]
    [Ev.copyOuterToInner, Ev.panicAssertInner, Ev.copyInnerToOuter, Ev.panicAssertOuter]
  exact .left (.left (.right (.right .nil)))

/-- C5, amended: for every TCP flow whose dial succeeds — both endpoints
being gonet TCP connections with `CloseWrite` — every trace has the
inner-to-outer copy followed by the half-close of the outer write side,
the outer-to-inner copy followed by the half-close of the inner write
side, and the return, releasing the flow, strictly after both; for
every UDP flow whose dial succeeds, no half-close ever occurs: a copy
goroutine panics at its unchecked `.(CloseWriter)` assertion and the
process crashes instead of `ProxyConn` returning. -/
theorem c5_proxy_copy_loop_amended :
    (∀ t : List Ev, IsProxyFlowTrace NetworkKind.tcp t →
      List.Sublist [Ev.copyInnerToOuter, Ev.closeWriteOuter] t.dropLast ∧
      List.Sublist [Ev.copyOuterToInner, Ev.closeWriteInner] t.dropLast ∧
      t.getLast? = some Ev.ret) ∧
    (∀ t : List Ev, IsProxyFlowTrace NetworkKind.udp t →
      Ev.closeWriteInner ∉ t ∧ Ev.closeWriteOuter ∉ t ∧
      (Ev.panicAssertInner ∈ t ∨ Ev.panicAssertOuter ∈ t) ∧
      t.getLast? = some Ev.processCrash) := by
  constructor
  · rintro t ⟨m, hI, ht⟩
    rw [show goroutineOuterToInnerEvents NetworkKind.tcp =
      [Ev.copyOuterToInner, Ev.closeWriteInner] from rfl] at hI
    rw [show goroutineInnerToOuterEvents NetworkKind.tcp =
      [Ev.copyInnerToOuter, Ev.closeWriteOuter] from rfl] at hI
    have ht' : t = m ++ [Ev.ret] := by
      simpa [copyGoroutinesAssertOk, implementsCloseWriter, innerConnType,
        outerConnType] using ht
    subst ht'
    refine ⟨?_, ?_, by simp⟩
    · simpa using hI.sublist_right
    · simpa using hI.sublist_left
  · rintro t ⟨m, hI, ht⟩
    rw [show goroutineOuterToInnerEvents NetworkKind.udp =
      [Ev.copyOuterToInner, Ev.panicAssertInner] from rfl] at hI
    rw [show goroutineInnerToOuterEvents NetworkKind.udp =
      [Ev.copyInnerToOuter, Ev.panicAssertOuter] from rfl] at hI
    have ht' : t = truncateAtPanic m ++ [Ev.processCrash] := by
      simpa [copyGoroutinesAssertOk, implementsCloseWriter, innerConnType,
        outerConnType] using ht
    subst ht'
    refine ⟨?_, ?_, ?_, by simp⟩
    · intro hmem
      rcases List.mem_append.mp hmem with h1 | h2
      · have h3 : Ev.closeWriteInner ∈ m := (truncateAtPanic_sublist m).subset h1
        rcases hI.mem_or h3 with h4 | h4 <;> simp at h4
      · simp at h2
    · intro hmem
      rcases List.mem_append.mp hmem with h1 | h2
      · have h3 : Ev.closeWriteOuter ∈ m := (truncateAtPanic_sublist m).subset h1
        rcases hI.mem_or h3 with h4 | h4 <;> simp at h4
      · simp at h2
    · have hin : Ev.panicAssertInner ∈ m := hI.sublist_left.subset (by simp)
      obtain ⟨p, hptr, hpp⟩ := truncateAtPanic_mem_panic (by decide) hin
      have hpt : p ∈ truncateAtPanic m ++ [Ev.processCrash] :=
        List.mem_append_left _ hptr
      cases p <;> first
        | exact Or.inl hpt
        | exact Or.inr hpt
        | exact absurd hpp (by decide)

/-- C5, witness: the amended statement evaluated on a concrete TCP trace
(outer-to-inner goroutine first, then inner-to-outer, then return) and
on the concrete UDP trace where the outer-to-inner copy finishes and
its assertion panic crashes the process. -/
theorem c5_proxy_copy_loop_amended_witness :
    (List.Sublist [Ev.copyInnerToOuter, Ev.closeWriteOuter]
      ([Ev.copyOuterToInner, Ev.closeWriteInner, Ev.copyInnerToOuter,
        Ev.closeWriteOuter, Ev.ret] : List Ev).dropLast ∧
     List.Sublist [Ev.copyOuterToInner, Ev.closeWriteInner]
      ([Ev.copyOuterToInner, Ev.closeWriteInner, Ev.copyInnerToOuter,
        Ev.closeWriteOuter, Ev.ret] : List Ev).dropLast ∧
     ([Ev.copyOuterToInner, Ev.closeWriteInner, Ev.copyInnerToOuter,
        Ev.closeWriteOuter, Ev.ret] : List Ev).getLast? = some Ev.ret) ∧
    (Ev.closeWriteInner ∉
      ([Ev.copyOuterToInner, Ev.panicAssertInner, Ev.processCrash] : List Ev) ∧
     Ev.closeWriteOuter ∉
      ([Ev.copyOuterToInner, Ev.panicAssertInner, Ev.processCrash] : List Ev) ∧
     (Ev.panicAssertInner ∈
        ([Ev.copyOuterToInner, Ev.panicAssertInner, Ev.processCrash] : List Ev) ∨
      Ev.panicAssertOuter ∈
        ([Ev.copyOuterToInner, Ev.panicAssertInner, Ev.processCrash] : List Ev)) ∧
     ([Ev.copyOuterToInner, Ev.panicAssertInner, Ev.processCrash] : List Ev).getLast? =
       some Ev.processCrash) :=
  ⟨c5_proxy_copy_loop_amended.1
    [Ev.copyOuterToInner, Ev.closeWriteInner, Ev.copyInnerToOuter,
      Ev.closeWriteOuter, Ev.ret]
    ⟨[Ev.copyOuterToInner, Ev.closeWriteInner, Ev.copyInnerToOuter, Ev.closeWriteOuter],
     Interleave.left (Interleave.left (Interleave.right (Interleave.right Interleave.nil))),
     by decide⟩,
   c5_proxy_copy_loop_amended.2
    [Ev.copyOuterToInner, Ev.panicAssertInner, Ev.processCrash]
    ⟨[Ev.copyOuterToInner, Ev.panicAssertInner, Ev.copyInnerToOuter, Ev.panicAssertOuter],
     Interleave.left (Interleave.left (Interleave.right (Interleave.right Interleave.nil))),
     by decide⟩⟩

/-- C6, confirmed: for a new TCP or UDP flow whose WG-side dial fails,
`ProxyConn` emits the dial-error debug log, closes the TUN-side (inner)
endpoint, and returns normally — it neither panics nor reports a
process-level failure. -/
theorem c6_dial_failure_handling :
    ∀ (network : List Char) (closeFails : Bool),
      (network = "tcp".toList ∨ network = "udp".toList) →
      proxyConn network false closeFails =
        .dialFailedReturn (proxyDialFailureEvents closeFails) ∧
      Ev.debugLogDialError ∈ proxyDialFailureEvents closeFails ∧
      Ev.closeInner ∈ proxyDialFailureEvents closeFails ∧
      proxyConn network false closeFails ≠ .panicked := by
  intro network closeFails h
  have h1 : proxyConn network false closeFails =
      .dialFailedReturn (proxyDialFailureEvents closeFails) := by
    simp only [proxyConn]
    rw [if_pos h]
    simp
  refine ⟨h1, ?_, ?_, by rw [h1]; simp⟩ <;>
    cases closeFails <;> simp [proxyDialFailureEvents]

/-- C6, witness: a UDP flow whose dial fails and whose inner close
succeeds takes the logging/close branch and returns normally. -/
theorem c6_dial_failure_handling_witness :
    proxyConn "udp".toList false false =
      .dialFailedReturn (proxyDialFailureEvents false) ∧
    Ev.debugLogDialError ∈ proxyDialFailureEvents false ∧
    Ev.closeInner ∈ proxyDialFailureEvents false ∧
    proxyConn "udp".toList false false ≠ .panicked :=
  c6_dial_failure_handling "udp".toList false (by decide)

/-- C9, confirmed: for every ICMPv4 and ICMPv6 packet delivered to the
registered handlers, the handler emits exactly one debug log line,
generates no response packet back toward the sender, and returns
`handledNoErrorRetval` — the value the code designates as "handled, no
error handler needs to be invoked" (src/wgcage.go:397-404). -/
theorem c9_icmp_log_and_drop :
    ∀ id : TransportEndpointID,
      (icmpHandler4 id).logs.length = 1 ∧
      (icmpHandler4 id).responsePackets = [] ∧
      (icmpHandler4 id).retval = handledNoErrorRetval ∧
      (icmpHandler6 id).logs.length = 1 ∧
      (icmpHandler6 id).responsePackets = [] ∧
      (icmpHandler6 id).retval = handledNoErrorRetval := by
  intro id
  refine ⟨rfl, rfl, rfl, rfl, rfl, rfl⟩

/-- C10, counterexample: for a UDP flow both endpoints are
`*gonet.UDPConn` (`gonet.NewUDPConn` at src/wgcage.go:385 on the inner
side, `DialUDPAddrPort` on the outer side), a type with no `CloseWrite`
method, so the unchecked `.(CloseWriter)` assertions of the copy
goroutines fail and the goroutines panic, refuting the claim that the
assertions succeed for every flow. -/
theorem c10_udp_closewrite_counterexample :
    copyGoroutinesAssertOk NetworkKind.udp = false ∧
    implementsCloseWriter (innerConnType NetworkKind.udp) = false := by
  decide

/-- C10, amended: the unchecked `.(CloseWriter)` assertions succeed for
TCP flows, whose endpoints are `*gonet.TCPConn` values carrying
`CloseWrite`; for UDP flows both endpoints are `*gonet.UDPConn`, the
assertion fails, and the copy goroutines panic when a copy
completes. -/
theorem c10_closewrite_amended :
    copyGoroutinesAssertOk NetworkKind.tcp = true ∧
    copyGoroutinesAssertOk NetworkKind.udp = false := by
  decide

/-- C7, code-bug evaluation: with two datagrams on the same 5-tuple and
the stalling forwarder schedule recorded by the TODO at
src/wgcage.go:370, only the first datagram is delivered to the derived
endpoint, while the claim (and the spec's forwarder contract) requires
both. -/
theorem c7_udp_forwarder_stall_eval :
    udpForwarderDelivered true [⟨1, 40000, 2, 53⟩, ⟨1, 40000, 2, 53⟩] =
      [⟨1, 40000, 2, 53⟩] ∧
    udpForwarderDelivered true [⟨1, 40000, 2, 53⟩, ⟨1, 40000, 2, 53⟩] ≠
      specUdpForwarderDelivered [⟨1, 40000, 2, 53⟩, ⟨1, 40000, 2, 53⟩] := by
  decide
